import Mathlib

/-!
Shallow embedding of the remote-capable service execution engine of the
`unshackle` repository, together with proofs settling the frozen claims.

Conventions of the embedding:
* Python dicts keyed by strings become ordered association lists
  (`List (String × α)`); assignment is insert-or-replace keeping position
  (`dictInsert`), matching CPython dict semantics.
* `requests.Session` becomes `Session`: a cookie jar (list of cookies), a
  header map (case-insensitively unique keys, as in `CaseInsensitiveDict`),
  and a proxies map.
* Timestamps (`time.time()`) are modelled as integral seconds (`Int`); all
  comparisons in the source are against whole-second constants.
* Fallible calls into service adapters (construction, `authenticate`,
  `get_titles`, `get_tracks`, the stdlib cookie parser) are oracles carried
  by a `ServerEnv` record: the handlers under verification treat them as
  opaque calls that either return a value or raise.
-/

/-- Python `str.lower()` on the ASCII strings handled here (header names,
service tags, aliases), implemented by structural recursion so that proofs
can evaluate it. -/
def lowerStr (s : String) : String := String.mk (s.data.map Char.toLower)

/-- Python `str.upper()` on the ASCII strings handled here (HTTP methods). -/
def upperStr (s : String) : String := String.mk (s.data.map Char.toUpper)

/-- Insert-or-replace into an ordered association list, CPython dict
assignment semantics: an existing key keeps its position and gets the new
value, a new key is appended. -/
def dictInsert {α : Type} (d : List (String × α)) (k : String) (v : α) : List (String × α) :=
  if d.any (fun kv => kv.1 = k) then
    d.map (fun kv => if kv.1 = k then (k, v) else kv)
  else d ++ [(k, v)]

/-- Ordered association-list lookup (first match). -/
def alookup {α : Type} (l : List (String × α)) (k : String) : Option α :=
  match l with
  | [] => none
  | kv :: rest => if kv.1 = k then some kv.2 else alookup rest k

/-- One cookie of a `requests` session cookie jar
(`cookielib.Cookie` attributes used by the serializer). -/
structure CookieRec where
  name : String
  value : String
  domain : String
  path : String
  secure : Bool
  expires : Option Int
deriving Repr, DecidableEq

/-- The per-cookie attribute record stored under the cookie's name in a
serialized session (`session_serializer.serialize_session`). -/
structure CookieAttrs where
  value : String
  domain : String
  path : String
  secure : Bool
  expires : Option Int
deriving Repr, DecidableEq

/-- A `requests.Session` as far as the serializer sees it: cookie jar,
header map and proxies map. -/
structure Session where
  cookies : List CookieRec
  headers : List (String × String)
  proxies : List (String × String)
deriving Repr, DecidableEq

/-- The portable session record (the JSON dict built by `serialize_session`,
possibly carrying the extra keys stamped by
`RemoteAuthenticator.authenticate_service_locally`).  Absent dict keys are
`none`. -/
structure SessionData where
  cookies : List (String × CookieAttrs)
  headers : List (String × String)
  proxies : List (String × String)
  cached_at : Option Int := none
  service_tag : Option String := none
  profile : Option (Option String) := none
  authenticated : Option Bool := none
deriving Repr, DecidableEq

/-- `session_serializer.serialize_session`: cookies into a dict keyed by
cookie name, headers copied except `Proxy-Authorization` (case-insensitive),
and a copy of the session's proxies map. -/
def serialize_session (s : Session) : SessionData :=
  { cookies := s.cookies.foldl
      (fun d c => dictInsert d c.name ⟨c.value, c.domain, c.path, c.secure, c.expires⟩) []
  , headers := s.headers.foldl
      (fun d kv => if lowerStr kv.1 = "proxy-authorization" then d else dictInsert d kv.1 kv.2) []
  , proxies := s.proxies }

/-- `RequestsCookieJar.set`: replace the cookie with the same
(name, domain, path) in place, else append. -/
def cookieSet (jar : List CookieRec) (c : CookieRec) : List CookieRec :=
  if jar.any (fun x => x.name = c.name ∧ x.domain = c.domain ∧ x.path = c.path) then
    jar.map (fun x => if x.name = c.name ∧ x.domain = c.domain ∧ x.path = c.path then c else x)
  else jar ++ [c]

/-- `CaseInsensitiveDict` assignment: replace the entry whose key matches
case-insensitively in place (storing the new key's case), else append. -/
def headerSet (hs : List (String × String)) (k v : String) : List (String × String) :=
  if hs.any (fun kv => lowerStr kv.1 = lowerStr k) then
    hs.map (fun kv => if lowerStr kv.1 = lowerStr k then (k, v) else kv)
  else hs ++ [(k, v)]

/-- `session_serializer.deserialize_session`: set every recorded cookie into
the target jar, update the target headers from the recorded headers; the
recorded proxies are deliberately not applied. -/
def deserialize_session (d : SessionData) (t : Session) : Session :=
  { cookies := d.cookies.foldl
      (fun jar nc => cookieSet jar ⟨nc.1, nc.2.value, nc.2.domain, nc.2.path, nc.2.secure, nc.2.expires⟩)
      t.cookies
  , headers := d.headers.foldl (fun hs kv => headerSet hs kv.1 kv.2) t.headers
  , proxies := t.proxies }

/-- A target session that has just been constructed and holds nothing yet. -/
def freshSession : Session := ⟨[], [], []⟩

/-! ## Remote server handlers (`core/api/remote_handlers.py`) -/

/-- A username/password credential. -/
structure Cred where
  username : String
  password : String
deriving Repr, DecidableEq

/-- The JSON body of a POST to an `/api/remote/<tag>/` operation endpoint;
absent keys are `none`.  `wanted` holds the token list produced by
`SeasonRange.parse_tokens` (the parser itself lives outside the handler). -/
structure RequestBody where
  query : Option String := none
  title : Option String := none
  wanted : Option (List String) := none
  season : Option Nat := none
  episode : Option Nat := none
  profile : Option String := none
  proxy : Option String := none
  no_proxy : Bool := false
  cookies : Option String := none
  credential : Option Cred := none
  pre_authenticated_session : Option SessionData := none

/-- A title as the tracks handler distinguishes them: an `Episode`
(season/number) or any other title kind. -/
inductive TitleT where
  | episode (season : Nat) (number : Nat)
  | movie (name : String)
deriving Repr, DecidableEq

/-- Everything a handler obtains from outside the request: the outcome of
`validate_service`, the server-side auth fallbacks (`dl.get_cookie_jar`,
`dl.get_credentials`), the stdlib cookie-file parser, and the service
adapter's behaviour (construction, `authenticate`, `get_titles`,
`get_tracks`, `search`).  `none` on an oracle means that call raises. -/
structure ServerEnv where
  serviceValid : Bool
  serverCookies : Option (List CookieRec)
  serverCred : Option Cred
  parseCookies : String → List CookieRec
  constructOk : Bool
  initialSession : Session
  authResultSession : Option Session
  searchOk : Bool
  titles : Option (List TitleT)
  getTracks : TitleT → Option Nat

/-- `SESSION_EXPIRY_TIME` (24 hours, in seconds). -/
def SESSION_EXPIRY_TIME : Int := 86400

/-- `remote_handlers.validate_session_expiry`: `none` when the record is
valid, `some "SESSION_EXPIRED"` when `now - cached_at` exceeds 24 h.  A
missing (or Python-falsy, i.e. zero) `cached_at` is accepted for backward
compatibility. -/
def validate_session_expiry (now : Int) (sd : Option SessionData) : Option String :=
  match sd with
  | none => none
  | some d =>
    match d.cached_at with
    | none => none
    | some c =>
      if c = 0 then none
      else if now - c > SESSION_EXPIRY_TIME then some "SESSION_EXPIRED" else none

/-- The quadruple returned by `remote_handlers.get_auth_from_request`. -/
structure AuthQuad where
  cookies : Option (List CookieRec)
  credential : Option Cred
  preauth : Option SessionData
  sessionError : Option String
deriving Repr

/-- `remote_handlers.get_auth_from_request`: prefer the client's
pre-authenticated session (after expiry validation); otherwise take
client-sent cookies/credential, falling back to the server-side cookie jar
and credentials when the client sent none (a Python-falsy empty cookies
string also triggers the fallback). -/
def get_auth_from_request (env : ServerEnv) (now : Int) (body : RequestBody) : AuthQuad :=
  match body.pre_authenticated_session with
  | some p =>
    match validate_session_expiry now (some p) with
    | some e => ⟨none, none, none, some e⟩
    | none => ⟨none, none, some p, none⟩
  | none =>
    let cookies := match body.cookies with
      | some c => if c = "" then env.serverCookies else some (env.parseCookies c)
      | none => env.serverCookies
    let credential := match body.credential with
      | some cd => some cd
      | none => env.serverCred
    ⟨cookies, credential, none, none⟩

/-- Python `re.match(r"^https?://", s)` is not `None`. -/
def matchesHttpScheme (s : String) : Bool :=
  "http://".data.isPrefixOf s.data || "https://".data.isPrefixOf s.data

/-- The proxy-validation block shared by every operation handler: when a
(Python-truthy) `proxy` is present and `no_proxy` is false, reject it with
400 `INVALID_PROXY` unless it matches `^https?://`.  `none` means the
handler continues. -/
def proxy_check (proxy : Option String) (noProxy : Bool) : Option (Nat × Option String) :=
  match proxy with
  | none => none
  | some p =>
    if p ≠ "" ∧ noProxy = false then
      if matchesHttpScheme p then none else some (400, some "INVALID_PROXY")
    else none

/-- Outcome of the authentication step of a handler: a 401 error code, or a
ready service session (deserialized from the client record, or the
adapter's own session after `authenticate`). -/
inductive AuthStage where
  | authError (code : String)
  | sessionReady (sess : Session)
deriving Repr

/-- A cookies value that is falsy in Python: absent, or an empty jar. -/
def cookiesFalsy (c : Option (List CookieRec)) : Bool :=
  match c with
  | none => true
  | some jar => jar.isEmpty

/-- The authentication step shared by every operation handler: expired
session → `SESSION_EXPIRED`; pre-authenticated session → deserialize into
the adapter's fresh session; otherwise authenticate with the resolved
cookies/credential, with 401 `AUTH_REQUIRED` when both are falsy or when
`authenticate` raises. -/
def resolve_auth (env : ServerEnv) (now : Int) (body : RequestBody) : AuthStage :=
  let a := get_auth_from_request env now body
  match a.sessionError with
  | some e => .authError e
  | none =>
    match a.preauth with
    | some p => .sessionReady (deserialize_session p env.initialSession)
    | none =>
      if cookiesFalsy a.cookies ∧ a.credential = none then .authError "AUTH_REQUIRED"
      else
        match env.authResultSession with
        | some s => .sessionReady s
        | none => .authError "AUTH_REQUIRED"

/-- Response of the search handler: success (carrying the re-serialized
session) or an error with HTTP status and optional `error_code`. -/
inductive HandlerResult where
  | success (session : SessionData)
  | err (status : Nat) (errorCode : Option String)
deriving Repr, DecidableEq

/-- `remote_handlers.remote_search`: validate `query` and the service tag,
run the proxy check, construct the adapter, authenticate, then search and
return the serialized session. -/
def remote_search (env : ServerEnv) (now : Int) (body : RequestBody) : HandlerResult :=
  match body.query with
  | none => .err 400 none
  | some q =>
    if q = "" then .err 400 none
    else if env.serviceValid = false then .err 400 none
    else
      match proxy_check body.proxy body.no_proxy with
      | some e => .err e.1 e.2
      | none =>
        if env.constructOk = false then .err 500 none
        else
          match resolve_auth env now body with
          | .authError c => .err 401 (some c)
          | .sessionReady sess =>
            if env.searchOk then .success (serialize_session sess) else .err 500 none

/-- Python `f"{n:02d}"`: zero-pad to two digits. -/
def pad2 (n : Nat) : String :=
  if n < 10 then "0" ++ toString n else toString n

/-- The key `f"{title.season}x{title.number}"` used to match an episode
against the `wanted` tokens. -/
def episodeKey (season number : Nat) : String :=
  toString season ++ "x" ++ toString number

/-- The label `f"S{title.season}E{title.number:02d}"` appended to
`failed_episodes` when an episode's `get_tracks` raises. -/
def failedEpisodeLabel (t : TitleT) : String :=
  match t with
  | .episode s n => "S" ++ toString s ++ "E" ++ pad2 n
  | .movie nm => nm

/-- Whether a title is an `Episode`. -/
def isEpisode (t : TitleT) : Bool :=
  match t with
  | .episode _ _ => true
  | .movie _ => false

/-- `sorted(..., key=lambda t: (t.season, t.number))` comparison. -/
def titleLe (a b : TitleT) : Bool :=
  match a, b with
  | .episode s1 n1, .episode s2 n2 => s1 < s2 ∨ (s1 = s2 ∧ n1 ≤ n2)
  | _, _ => true

/-- Insert into a list sorted by `titleLe`. -/
def insertTitle (x : TitleT) : List TitleT → List TitleT
  | [] => [x]
  | y :: ys => if titleLe x y then x :: y :: ys else y :: insertTitle x ys

/-- Sort titles by `(season, number)`. -/
def sortTitles (l : List TitleT) : List TitleT :=
  l.foldr insertTitle []

/-- The `wanted` episode filter of the tracks handler: an explicit token
list, or the single token built from `season`/`episode` when both are
given. -/
def wantedTokens (body : RequestBody) : Option (List String) :=
  match body.wanted with
  | some w => some w
  | none =>
    match body.season, body.episode with
    | some s, some e => some [episodeKey s e]
    | _, _ => none

/-- Response of the tracks handler: a single title's tracks, a
per-episode list (with the episodes whose resolution failed), or an error
with HTTP status and optional `error_code`.  Track payloads are opaque
(the claims concern which episodes appear, not track serialization). -/
inductive TracksResult where
  | single (title : TitleT) (payload : Nat) (session : SessionData)
  | multi (episodes : List (TitleT × Nat)) (unavailable : List String) (session : SessionData)
  | terr (status : Nat) (errorCode : Option String)
deriving Repr, DecidableEq

/-- Tracks for one title: `get_tracks` raising is a 500 from the outer
handler. -/
def singleTitleTracks (env : ServerEnv) (sess : Session) (t : TitleT) : TracksResult :=
  match env.getTracks t with
  | some p => .single t p (serialize_session sess)
  | none => .terr 500 none

/-- The episode filter of the tracks handler: an `Episode` passes iff its
`{season}x{number}` key is among the wanted tokens; any other title always
passes. -/
def wantedFilter (w : List String) (ts : List TitleT) : List TitleT :=
  ts.filter (fun t =>
    match t with
    | .episode s n => w.contains (episodeKey s n)
    | .movie _ => true)

/-- One episode's entry of the multi-episode response: `some` of the title
paired with its (opaque) tracks payload when `get_tracks` succeeds. -/
def trackEntry (env : ServerEnv) (t : TitleT) : Option (TitleT × Nat) :=
  (env.getTracks t).map (fun p => (t, p))

/-- The `episodes` list of the multi-episode response. -/
def episodesPayload (env : ServerEnv) (sortedT : List TitleT) : List (TitleT × Nat) :=
  sortedT.filterMap (trackEntry env)

/-- The `unavailable_episodes` list: a label per episode whose
`get_tracks` raised. -/
def unavailableLabels (env : ServerEnv) (sortedT : List TitleT) : List String :=
  (sortedT.filter (fun t => env.getTracks t = none)).map failedEpisodeLabel

/-- The title-selection and track-resolution part of
`remote_handlers.remote_get_tracks` (after authentication): filter the
enumerated titles by the wanted tokens (non-episodes always pass), and for
more than one matching episode resolve tracks per episode, collecting
failures into `unavailable_episodes` and erroring with 404 only when no
episode resolves. -/
def tracksStage (env : ServerEnv) (sess : Session) (body : RequestBody) : TracksResult :=
  match env.titles with
  | none => .terr 500 none
  | some ts =>
    match wantedTokens body with
    | some w =>
      match wantedFilter w ts with
      | [] => .terr 404 none
      | t0 :: rest =>
        if (t0 :: rest).length > 1 ∧ (t0 :: rest).all isEpisode then
          (let sortedT := sortTitles (t0 :: rest)
           if (episodesPayload env sortedT).isEmpty then .terr 404 none
           else .multi (episodesPayload env sortedT) (unavailableLabels env sortedT)
             (serialize_session sess))
        else singleTitleTracks env sess t0
    | none =>
      match ts with
      | [] => .terr 500 none
      | t0 :: _ => singleTitleTracks env sess t0

/-- `remote_handlers.remote_get_tracks`: validate the `title` field and the
service tag, run the proxy check, construct the adapter, authenticate, then
select titles and resolve tracks. -/
def remote_get_tracks (env : ServerEnv) (now : Int) (body : RequestBody) : TracksResult :=
  match body.title with
  | none => .terr 400 none
  | some ti =>
    if ti = "" then .terr 400 none
    else if env.serviceValid = false then .terr 400 none
    else
      match proxy_check body.proxy body.no_proxy with
      | some e => .terr e.1 e.2
      | none =>
        if env.constructOk = false then .terr 500 none
        else
          match resolve_auth env now body with
          | .authError c => .terr 401 (some c)
          | .sessionReady sess => tracksStage env sess body

/-! ## Local session cache (`core/local_session_cache.py`) -/

/-- One stored cache entry: the serialized session plus the metadata added
by `store_session`. -/
structure CacheEntry where
  session_data : SessionData
  cached_at : Int
  service_tag : String
  profile : String
deriving Repr, DecidableEq

/-- The persisted document: `remote_url → service_tag → profile → entry`. -/
abbrev Cache := List (String × List (String × List (String × CacheEntry)))

instance : DecidableEq (List (String × CacheEntry)) := List.hasDecEq

instance : DecidableEq (List (String × List (String × CacheEntry))) := List.hasDecEq

instance : DecidableEq Cache := List.hasDecEq

/-- Nested lookup `sessions[remote_url][service_tag][profile]`. -/
def cacheLookup (c : Cache) (url tag prof : String) : Option CacheEntry :=
  (alookup c url).bind (fun m => (alookup m tag).bind (fun m2 => alookup m2 prof))

/-- `del sessions[url][tag][prof]` at the innermost level. -/
def delete_profile_level (prof : String) (m2 : List (String × CacheEntry)) :
    List (String × CacheEntry) :=
  m2.filter (fun pv => pv.1 ≠ prof)

/-- Delete the profile under its service tag, dropping the tag key when its
dict becomes empty (the cleanup step of `delete_session`). -/
def delete_tag_level (tag prof : String) :
    List (String × List (String × CacheEntry)) → List (String × List (String × CacheEntry))
  | [] => []
  | tm :: rest =>
    if tm.1 = tag then
      (let m2 := delete_profile_level prof tm.2
       if m2.isEmpty then delete_tag_level tag prof rest
       else (tm.1, m2) :: delete_tag_level tag prof rest)
    else tm :: delete_tag_level tag prof rest

/-- Delete the entry under its remote url, dropping the url key when its
dict becomes empty (the cleanup step of `delete_session`). -/
def delete_url_level (url tag prof : String) : Cache → Cache
  | [] => []
  | um :: rest =>
    if um.1 = url then
      (let m := delete_tag_level tag prof um.2
       if m.isEmpty then delete_url_level url tag prof rest
       else (um.1, m) :: delete_url_level url tag prof rest)
    else um :: delete_url_level url tag prof rest

/-- `LocalSessionCache.delete_session`: delete the entry (no-op when the
key chain is absent, mirroring the caught `KeyError`), then clean up the
emptied nested dicts. -/
def delete_session (c : Cache) (url tag prof : String) : Cache :=
  match cacheLookup c url tag prof with
  | none => c
  | some _ => delete_url_level url tag prof c

/-- `LocalSessionCache.store_session`: insert-or-replace the entry,
stamping `cached_at` with the current time. -/
def store_session (c : Cache) (now : Int) (url tag prof : String) (sd : SessionData) : Cache :=
  let m := (alookup c url).getD []
  let m2 := (alookup m tag).getD []
  dictInsert c url (dictInsert m tag (dictInsert m2 prof ⟨sd, now, tag, prof⟩))

/-- `LocalSessionCache.get_session`: return the stored session data unless
the entry is older than 24 hours, in which case delete it and return
nothing.  The result pairs the returned value with the cache state after
the call. -/
def get_session (c : Cache) (now : Int) (url tag prof : String) :
    Option SessionData × Cache :=
  match cacheLookup c url tag prof with
  | none => (none, c)
  | some e =>
    if now - e.cached_at > 86400 then (none, delete_session c url tag prof)
    else (some e.session_data, c)

/-! ## Remote auth orchestrator (`core/remote_auth.py`) -/

/-- The record-building tail of
`RemoteAuthenticator.authenticate_service_locally`: serialize the
adapter's session after a successful `authenticate`, then stamp
`service_tag`, `profile` and `authenticated = True` onto the record. -/
def authenticate_service_locally (s : Session) (tag : String) (profile : Option String) :
    SessionData :=
  let d := serialize_session s
  { d with service_tag := some tag, profile := some profile, authenticated := some true }

/-! ## Service registry (`core/services.py`) -/

/-- A registered service: canonical tag plus `ALIASES`. -/
structure SvcInfo where
  tag : String
  aliases : List String
deriving Repr, DecidableEq

/-- `Services.get_tag`: lower-case the input; a local service matches when
the lowered input equals its lowered tag or is literally contained in its
`ALIASES`; a remote service matches when the lowered input equals its
lowered tag or a lowered alias; otherwise return the input unchanged. -/
def get_tag (locals remotes : List SvcInfo) (value : String) : String :=
  let v := lowerStr value
  match locals.find? (fun s => v == lowerStr s.tag || s.aliases.contains v) with
  | some s => s.tag
  | none =>
    match remotes.find? (fun s => v == lowerStr s.tag || s.aliases.any (fun a => lowerStr a == v)) with
    | some s => s.tag
    | none => value

/-- The matching relation `get_tag` actually implements for a LOCAL
service: the lowered input equals the lowered tag, or is literally one of
the `ALIASES` (which are not case-folded for local services). -/
def localAliasMatch (x : String) (s : SvcInfo) : Prop :=
  lowerStr x = lowerStr s.tag ∨ lowerStr x ∈ s.aliases

/-- The matching relation `get_tag` implements for a REMOTE service: the
lowered input equals the lowered tag or a lowered alias. -/
def remoteAliasMatch (x : String) (s : SvcInfo) : Prop :=
  lowerStr x = lowerStr s.tag ∨ ∃ a ∈ s.aliases, lowerStr a = lowerStr x

instance (x : String) (s : SvcInfo) : Decidable (localAliasMatch x s) := by
  unfold localAliasMatch
  infer_instance

instance (x : String) (s : SvcInfo) : Decidable (remoteAliasMatch x s) := by
  unfold remoteAliasMatch
  infer_instance

/-! ## HTTP client facade retry (`core/clients/retry.py`, `base.py`,
`config.py`, and tenacity's `stop_after_attempt` / `wait_exponential`) -/

/-- `config.RetryConfig` (defaults as in the source). -/
structure RetryConfig where
  retries : Nat := 3
  backoff_multiplier : ℚ := 1
  retry_statuses : List Nat := [429, 500, 502, 503, 504]
  retry_methods : List String := ["GET", "POST"]

/-- tenacity's `_utils.MAX_WAIT` (`sys.maxsize / 2`), the default upper
clamp of `wait_exponential`. -/
def MAX_WAIT : ℚ := (2 ^ 63 - 1) / 2

/-- tenacity `wait_exponential(multiplier=m)` evaluated after attempt
number `n` (1-based): `clamp(m * 2 ^ (n - 1))` into `[0, MAX_WAIT]`.  The
wait depends only on the attempt number and the multiplier — never on the
failed response. -/
def wait_exponential (m : ℚ) (attemptNumber : Nat) : ℚ :=
  let r := m * 2 ^ (attemptNumber - 1)
  let clamped := if r ≤ MAX_WAIT then r else MAX_WAIT
  if 0 ≤ clamped then clamped else 0

/-- What one attempt of the wrapped call observes: the backend raising, or
a response with a status code and an optional `Retry-After` header
(seconds). -/
inductive Outcome where
  | exc (msg : String)
  | resp (status : Nat) (retryAfter : Option Nat)
deriving Repr, DecidableEq

/-- The unified error hierarchy of `clients/exceptions.py`
(`NetworkHTTPError` is a `NetworkError`). -/
inductive NetErr where
  | networkError (msg : String)
  | networkHTTPError (status : Nat)
deriving Repr, DecidableEq

/-- The `raw_call` closure of `BaseHttpClient._execute`: a backend
exception becomes `NetworkError`; a response whose status is retryable for
a retryable method raises `NetworkHTTPError`; anything else is returned. -/
def raw_call (retryMethods : List String) (retryStatuses : List Nat) (method : String)
    (o : Outcome) : Except NetErr Nat :=
  match o with
  | .exc m => .error (.networkError m)
  | .resp s _ =>
    if method ∈ retryMethods ∧ s ∈ retryStatuses then .error (.networkHTTPError s)
    else .ok s

instance : DecidableEq (Except NetErr Nat) := fun x y =>
  match x, y with
  | .ok a, .ok b =>
    if h : a = b then isTrue (by rw [h]) else isFalse (fun hh => h (Except.ok.inj hh))
  | .ok _, .error _ => isFalse (fun h => Except.noConfusion h)
  | .error _, .ok _ => isFalse (fun h => Except.noConfusion h)
  | .error a, .error b =>
    if h : a = b then isTrue (by rw [h]) else isFalse (fun hh => h (Except.error.inj hh))

/-- The observable trace of one `_execute` call: the final result, how many
attempts ran, and the waits slept between attempts (in order). -/
structure RunResult where
  result : Except NetErr Nat
  attempts : Nat
  waits : List ℚ
deriving Repr, DecidableEq

/-- The tenacity retry loop built by `build_retry`:
`stop_after_attempt(retries)` bounds the attempts, `wait_exponential`
sleeps between them, every `NetworkError` retries, `reraise=True` surfaces
the last error.  `fuel` is the number of retries still allowed. -/
def retryLoop (rm : List String) (rs : List Nat) (m : ℚ) (method : String)
    (oracle : Nat → Outcome) (attempt : Nat) (fuel : Nat) (ws : List ℚ) : RunResult :=
  match raw_call rm rs method (oracle attempt) with
  | .ok s => ⟨.ok s, attempt, ws.reverse⟩
  | .error e =>
    match fuel with
    | 0 => ⟨.error e, attempt, ws.reverse⟩
    | f + 1 =>
      retryLoop rm rs m method oracle (attempt + 1) f (wait_exponential m attempt :: ws)

/-- `BaseHttpClient._execute`: upper-case the method; a retryable method
runs under the tenacity wrapper (at most `retries` attempts), any other
method calls the backend once.  The `oracle` gives the outcome of the
`n`-th attempt. -/
def executeHttp (cfg : RetryConfig) (method : String) (oracle : Nat → Outcome) : RunResult :=
  let meth := upperStr method
  if meth ∈ cfg.retry_methods then
    retryLoop cfg.retry_methods cfg.retry_statuses cfg.backoff_multiplier meth oracle 1
      (cfg.retries - 1) []
  else ⟨raw_call cfg.retry_methods cfg.retry_statuses meth (oracle 1), 1, []⟩

/-- Forget the `Retry-After` header of an outcome. -/
def stripRetryAfter (o : Outcome) : Outcome :=
  match o with
  | .exc m => .exc m
  | .resp s _ => .resp s none




/-! ## Concrete fixtures used by witnesses and counterexamples -/

/-- A serialized record holding one authorization header (no `cached_at`). -/
def sdAuthz : SessionData :=
  { cookies := [], headers := [("Authorization", "Bearer t")], proxies := [] }

/-- A record as a client would send after local auth: one cookie. -/
def sdPre : SessionData :=
  { cookies := [("sid", ⟨"abc", "a.com", "/", false, none⟩)], headers := [], proxies := [] }

/-- A cache document holding one entry cached at time 0. -/
def cacheFix : Cache := [("u", [("NF", [("default", ⟨sdAuthz, 0, "NF", "default"⟩)])])]

/-- An authenticated session: one cookie, one authorization header. -/
def sessAuthz : Session :=
  ⟨[⟨"sid", "abc", "a.com", "/", true, none⟩], [("Authorization", "Bearer t")], []⟩

/-- A session holding two cookies that share a name (allowed by `requests`
jars across domains). -/
def dupCookieSession : Session :=
  ⟨[⟨"sid", "1", "a.com", "/", false, none⟩, ⟨"sid", "2", "b.com", "/", false, none⟩], [], []⟩

/-- A session with a configured proxy. -/
def proxySession : Session := ⟨[], [], [("http", "http://127.0.0.1:8888")]⟩

/-- A server environment whose adapter calls all succeed trivially and whose
config holds no fallback auth material. -/
def envFix : ServerEnv :=
  { serviceValid := true, serverCookies := none, serverCred := none
  , parseCookies := fun _ => [], constructOk := true
  , initialSession := freshSession, authResultSession := none, searchOk := true
  , titles := none, getTracks := fun _ => none }

/-- A server environment for the multi-episode tracks scenario: three
episodes of season 1; resolving episode 2 raises. -/
def envEpisodes : ServerEnv :=
  { envFix with
    titles := some [.episode 1 1, .episode 1 2, .episode 1 3]
  , getTracks := fun t => match t with | .episode 1 2 => none | _ => some 7 }

/-- A tracks request for `wanted="1x1-1x3"` (its parsed token list) carrying
a pre-authenticated session. -/
def bodyEpisodes : RequestBody :=
  { title := some "show", wanted := some ["1x1", "1x2", "1x3"]
  , pre_authenticated_session := some sdPre }

/-- A search request carrying a pre-authenticated session without
`cached_at`. -/
def bodyPre : RequestBody := { query := some "q", pre_authenticated_session := some sdPre }

/-- The attempt oracle of an HTTP call whose first response is a retryable
503 carrying `Retry-After: 100`, then succeeds. -/
def oracleRetryAfter (n : Nat) : Outcome :=
  if n = 1 then .resp 503 (some 100) else .resp 200 none

/-- The attempt oracle of an HTTP call that keeps returning 503. -/
def oracle503 (_ : Nat) : Outcome := .resp 503 none

/-! ## Helper lemmas -/

theorem alookup_mapReplace {α : Type} (d : List (String × α)) (k : String) (v : α)
    (h : d.any (fun kv => kv.1 = k) = true) :
    alookup (d.map (fun kv => if kv.1 = k then (k, v) else kv)) k = some v := by
  induction d with
  | nil => simp at h
  | cons x rest ih =>
    simp only [List.any_cons, Bool.or_eq_true, decide_eq_true_eq] at h
    by_cases hx : x.1 = k
    · simp [alookup, hx]
    · have hr : rest.any (fun kv => decide (kv.1 = k)) = true := by
        rcases h with h | h
        · exact absurd h hx
        · exact h
      simp only [List.map_cons, alookup, if_neg hx]
      exact ih hr

theorem alookup_eq_none_of_not_any {α : Type} (d : List (String × α)) (k : String)
    (h : d.any (fun kv => kv.1 = k) = false) : alookup d k = none := by
  induction d with
  | nil => rfl
  | cons x rest ih =>
    simp only [List.any_cons, Bool.or_eq_false_iff, decide_eq_false_iff_not] at h
    simp only [alookup, if_neg h.1]
    exact ih (by simpa using h.2)

theorem alookup_append_self {α : Type} (d : List (String × α)) (k : String) (v : α)
    (h : alookup d k = none) : alookup (d ++ [(k, v)]) k = some v := by
  induction d with
  | nil => simp [alookup]
  | cons x rest ih =>
    simp only [alookup] at h ⊢
    by_cases hx : x.1 = k
    · rw [if_pos hx] at h; cases h
    · rw [if_neg hx] at h ⊢
      exact ih h

theorem alookup_dictInsert_self {α : Type} (d : List (String × α)) (k : String) (v : α) :
    alookup (dictInsert d k v) k = some v := by
  unfold dictInsert
  split
  next h => exact alookup_mapReplace d k v h
  next h =>
    rw [Bool.not_eq_true] at h
    exact alookup_append_self d k v (alookup_eq_none_of_not_any d k h)

theorem alookup_filter_ne (m2 : List (String × CacheEntry)) (prof : String) :
    alookup (delete_profile_level prof m2) prof = none := by
  induction m2 with
  | nil => rfl
  | cons pv rest ih =>
    by_cases hp : pv.1 = prof
    · simpa [delete_profile_level, List.filter_cons, hp] using ih
    · simpa [delete_profile_level, List.filter_cons, hp, alookup] using ih

theorem alookup_delete_tag_level (m : List (String × List (String × CacheEntry)))
    (tag prof : String) :
    ((alookup (delete_tag_level tag prof m) tag).bind (fun m2 => alookup m2 prof)) = none := by
  induction m with
  | nil => rfl
  | cons tm rest ih =>
    by_cases ht : tm.1 = tag
    · by_cases he : (delete_profile_level prof tm.2).isEmpty
      · simpa [delete_tag_level, ht, he] using ih
      · simp [delete_tag_level, ht, he, alookup, alookup_filter_ne]
    · simpa [delete_tag_level, ht, alookup] using ih

theorem alookup_delete_url_level (c : Cache) (url tag prof : String) :
    ((alookup (delete_url_level url tag prof c) url).bind
      (fun m => (alookup m tag).bind (fun m2 => alookup m2 prof))) = none := by
  induction c with
  | nil => rfl
  | cons um rest ih =>
    by_cases hu : um.1 = url
    · by_cases he : (delete_tag_level tag prof um.2).isEmpty
      · simpa [delete_url_level, hu, he] using ih
      · simpa [delete_url_level, hu, he, alookup] using alookup_delete_tag_level um.2 tag prof
    · simpa [delete_url_level, hu, alookup] using ih

theorem cacheLookup_delete (c : Cache) (url tag prof : String) :
    cacheLookup (delete_session c url tag prof) url tag prof = none := by
  unfold delete_session
  cases h : cacheLookup c url tag prof with
  | none => exact h
  | some e => exact alookup_delete_url_level c url tag prof

theorem cacheLookup_store (c : Cache) (now : Int) (url tag prof : String) (sd : SessionData) :
    cacheLookup (store_session c now url tag prof sd) url tag prof =
      some ⟨sd, now, tag, prof⟩ := by
  unfold store_session cacheLookup
  rw [alookup_dictInsert_self]
  simp only [Option.some_bind]
  rw [alookup_dictInsert_self]
  simp only [Option.some_bind]
  rw [alookup_dictInsert_self]

theorem get_session_found (c : Cache) (now : Int) (url tag prof : String) (e : CacheEntry)
    (h : cacheLookup c url tag prof = some e) :
    get_session c now url tag prof =
      if now - e.cached_at > 86400 then (none, delete_session c url tag prof)
      else (some e.session_data, c) := by
  unfold get_session
  rw [h]

/-- C2 (amended): for every key present in the Local Session Cache,
`get_session` returns the stored session data iff `now - cached_at ≤ 24 h`;
an entry that is strictly older is deleted from the document and nothing is
returned; at the boundary, an entry aged exactly 24 h − 1 s is returned and
so is one aged exactly 24 h — only ages strictly greater than 24 h are
expired (the source compares `age > 86400`). -/
theorem C2_get_session_expiry (c : Cache) (now : Int) (url tag prof : String) (e : CacheEntry)
    (h : cacheLookup c url tag prof = some e) :
    ((get_session c now url tag prof).1 = some e.session_data ↔ now - e.cached_at ≤ 86400)
    ∧ (now - e.cached_at > 86400 →
        (get_session c now url tag prof).1 = none
        ∧ cacheLookup (get_session c now url tag prof).2 url tag prof = none)
    ∧ (now - e.cached_at ≤ 86400 → (get_session c now url tag prof).2 = c) := by
  rw [get_session_found c now url tag prof e h]
  by_cases hex : now - e.cached_at > 86400
  · rw [if_pos hex]
    have hnle : ¬ (now - e.cached_at ≤ 86400) := not_le.mpr hex
    refine ⟨⟨fun hc => Option.noConfusion hc, fun hc => absurd hc hnle⟩,
      fun _ => ⟨rfl, cacheLookup_delete c url tag prof⟩,
      fun hle => absurd hle hnle⟩
  · rw [if_neg hex]
    have hle : now - e.cached_at ≤ 86400 := not_lt.mp hex
    exact ⟨⟨fun _ => hle, fun _ => rfl⟩, fun hc => absurd hc hex, fun _ => rfl⟩

/-- Witness for C2: the entry cached at time 0 is still returned at
`now = 86399` and at exactly `now = 86400`; at `now = 86401` it is gone and
the document no longer holds the key. -/
theorem C2_get_session_expiry_witness :
    (get_session cacheFix 86399 "u" "NF" "default").1 = some sdAuthz
    ∧ (get_session cacheFix 86400 "u" "NF" "default").1 = some sdAuthz
    ∧ (get_session cacheFix 86401 "u" "NF" "default").1 = none
    ∧ cacheLookup (get_session cacheFix 86401 "u" "NF" "default").2 "u" "NF" "default" = none := by
  refine ⟨(C2_get_session_expiry cacheFix 86399 "u" "NF" "default" ⟨sdAuthz, 0, "NF", "default"⟩
      (by decide)).1.mpr (by decide),
    (C2_get_session_expiry cacheFix 86400 "u" "NF" "default" ⟨sdAuthz, 0, "NF", "default"⟩
      (by decide)).1.mpr (by decide),
    ?_, ?_⟩
  · exact ((C2_get_session_expiry cacheFix 86401 "u" "NF" "default" ⟨sdAuthz, 0, "NF", "default"⟩
      (by decide)).2.1 (by decide)).1
  · exact ((C2_get_session_expiry cacheFix 86401 "u" "NF" "default" ⟨sdAuthz, 0, "NF", "default"⟩
      (by decide)).2.1 (by decide)).2

/-- Counterexample for C2 as stated: the claim's boundary clause says an
entry whose age is exactly 24 h is treated as expired, but on the entry
cached at 0 queried at `now = 86400` `get_session` still returns the data
and leaves the document untouched (`age > 86400` is false). -/
theorem C2_get_session_expiry_counterexample :
    (get_session cacheFix 86400 "u" "NF" "default").1 = some sdAuthz
    ∧ (get_session cacheFix 86400 "u" "NF" "default").2 = cacheFix := by
  constructor
  · decide
  · decide

/-- C5 (amended): a successful `authenticate_service_locally` returns the
serialization of the adapter's authenticated session stamped with
`service_tag`, `profile` and `authenticated = True`; it does NOT stamp
`cached_at` — that timestamp is only attached by the Local Session Cache as
entry metadata when the record is stored. -/
theorem C5_authenticate_service_locally_record (s : Session) (tag : String)
    (profile : Option String) (c : Cache) (now : Int) (url prof : String) :
    (authenticate_service_locally s tag profile).cookies = (serialize_session s).cookies
    ∧ (authenticate_service_locally s tag profile).headers = (serialize_session s).headers
    ∧ (authenticate_service_locally s tag profile).proxies = (serialize_session s).proxies
    ∧ (authenticate_service_locally s tag profile).service_tag = some tag
    ∧ (authenticate_service_locally s tag profile).profile = some profile
    ∧ (authenticate_service_locally s tag profile).authenticated = some true
    ∧ (authenticate_service_locally s tag profile).cached_at = none
    ∧ cacheLookup
        (store_session c now url tag prof (authenticate_service_locally s tag profile))
        url tag prof
      = some ⟨authenticate_service_locally s tag profile, now, tag, prof⟩ :=
  ⟨rfl, rfl, rfl, rfl, rfl, rfl, rfl,
    cacheLookup_store c now url tag prof (authenticate_service_locally s tag profile)⟩

/-- Counterexample for C5 as stated: the claim says the returned record is
stamped with `cached_at` equal to the current time, but on a concrete
authenticated session the record produced by
`authenticate_service_locally` carries no `cached_at` at all (so it equals
`some now` for no time whatsoever). -/
theorem C5_authenticate_service_locally_record_counterexample :
    (authenticate_service_locally sessAuthz "NF" (some "default")).cached_at = none := rfl

theorem proxy_check_shape (p : Option String) (np : Bool) (r : Nat × Option String)
    (h : proxy_check p np = some r) : r = (400, some "INVALID_PROXY") := by
  unfold proxy_check at h
  split at h
  · cases h
  · split at h
    · split at h
      · cases h
      · cases h; rfl
    · cases h

theorem proxy_check_some (p : String) (hpne : p ≠ "") :
    proxy_check (some p) false =
      if matchesHttpScheme p then none else some (400, some "INVALID_PROXY") := by
  unfold proxy_check
  simp [hpne]

theorem resolve_auth_preauth_fresh (env : ServerEnv) (now : Int) (body : RequestBody)
    (p : SessionData) (hp : body.pre_authenticated_session = some p)
    (hc : p.cached_at = none) :
    resolve_auth env now body = .sessionReady (deserialize_session p env.initialSession) := by
  unfold resolve_auth get_auth_from_request validate_session_expiry
  simp [hp, hc]

theorem remote_search_401 (env : ServerEnv) (now : Int) (body : RequestBody) (c : String)
    (h : remote_search env now body = .err 401 (some c)) :
    resolve_auth env now body = .authError c := by
  unfold remote_search at h
  split at h
  · exact absurd h (by simp)
  · split at h
    · exact absurd h (by simp)
    · split at h
      · exact absurd h (by simp)
      · split at h
        · rename_i r heq
          have hr := proxy_check_shape body.proxy body.no_proxy r heq
          subst hr
          exact absurd h (by simp)
        · split at h
          · exact absurd h (by simp)
          · split at h
            · rename_i c' heq
              simp only [HandlerResult.err.injEq, Option.some.injEq] at h
              rw [heq, h.2]
            · rename_i sess heq
              split at h <;> exact absurd h (by simp)

theorem tracksStage_err_code (env : ServerEnv) (sess : Session) (body : RequestBody)
    (st : Nat) (ec : Option String) (h : tracksStage env sess body = .terr st ec) :
    ec = none ∧ (st = 404 ∨ st = 500) := by
  unfold tracksStage singleTitleTracks at h
  dsimp only at h
  split at h
  · cases h; exact ⟨rfl, Or.inr rfl⟩
  · split at h
    · split at h
      · cases h; exact ⟨rfl, Or.inl rfl⟩
      · split at h
        · split at h
          · cases h; exact ⟨rfl, Or.inl rfl⟩
          · cases h
        · split at h
          · cases h
          · cases h; exact ⟨rfl, Or.inr rfl⟩
    · split at h
      · cases h; exact ⟨rfl, Or.inr rfl⟩
      · split at h
        · cases h
        · cases h; exact ⟨rfl, Or.inr rfl⟩

theorem remote_get_tracks_401 (env : ServerEnv) (now : Int) (body : RequestBody) (c : String)
    (h : remote_get_tracks env now body = .terr 401 (some c)) :
    resolve_auth env now body = .authError c := by
  unfold remote_get_tracks at h
  split at h
  · exact absurd h (by simp)
  · split at h
    · exact absurd h (by simp)
    · split at h
      · exact absurd h (by simp)
      · split at h
        · rename_i r heq
          have hr := proxy_check_shape body.proxy body.no_proxy r heq
          subst hr
          exact absurd h (by simp)
        · split at h
          · exact absurd h (by simp)
          · split at h
            · rename_i c' heq
              simp only [TracksResult.terr.injEq, Option.some.injEq] at h
              rw [heq, h.2]
            · rename_i sess heq
              have := tracksStage_err_code env sess body 401 (some c) h
              exact absurd this.1 (by simp)

/-- C6: a `pre_authenticated_session` record without a `cached_at` field
passes expiry validation (`validate_session_expiry` returns no error code),
so such a request is never answered 401 `SESSION_EXPIRED` by the search or
tracks handlers, regardless of when the session was actually created. -/
theorem C6_no_cached_at_never_expired (env : ServerEnv) (now : Int) (body : RequestBody)
    (p : SessionData) (hp : body.pre_authenticated_session = some p)
    (hc : p.cached_at = none) :
    validate_session_expiry now (some p) = none
    ∧ (get_auth_from_request env now body).sessionError = none
    ∧ remote_search env now body ≠ .err 401 (some "SESSION_EXPIRED")
    ∧ remote_get_tracks env now body ≠ .terr 401 (some "SESSION_EXPIRED") := by
  have hval : validate_session_expiry now (some p) = none := by
    unfold validate_session_expiry
    simp [hc]
  have hauth : resolve_auth env now body =
      .sessionReady (deserialize_session p env.initialSession) :=
    resolve_auth_preauth_fresh env now body p hp hc
  refine ⟨hval, ?_, ?_, ?_⟩
  · unfold get_auth_from_request
    simp [hp, hval]
  · intro h
    have := remote_search_401 env now body "SESSION_EXPIRED" h
    rw [hauth] at this
    cases this
  · intro h
    have := remote_get_tracks_401 env now body "SESSION_EXPIRED" h
    rw [hauth] at this
    cases this

/-- Witness for C6: a concrete search and tracks call carrying a record
without `cached_at` validates and is not answered `SESSION_EXPIRED`,
however late the call happens. -/
theorem C6_no_cached_at_never_expired_witness :
    validate_session_expiry 9999999999 (some sdPre) = none
    ∧ (get_auth_from_request envFix 9999999999 bodyPre).sessionError = none
    ∧ remote_search envFix 9999999999 bodyPre ≠ .err 401 (some "SESSION_EXPIRED")
    ∧ remote_get_tracks envFix 9999999999 bodyPre ≠ .terr 401 (some "SESSION_EXPIRED") :=
  C6_no_cached_at_never_expired envFix 9999999999 bodyPre sdPre rfl rfl

theorem remote_search_proxy_reject (env : ServerEnv) (now : Int) (body : RequestBody)
    (q : String) (hq : body.query = some q) (hqne : q ≠ "") (hsv : env.serviceValid = true)
    (h : proxy_check body.proxy body.no_proxy = some (400, some "INVALID_PROXY")) :
    remote_search env now body = .err 400 (some "INVALID_PROXY") := by
  unfold remote_search
  simp [hq, hqne, hsv, h]

theorem remote_get_tracks_proxy_reject (env : ServerEnv) (now : Int) (body : RequestBody)
    (ti : String) (ht : body.title = some ti) (htne : ti ≠ "") (hsv : env.serviceValid = true)
    (h : proxy_check body.proxy body.no_proxy = some (400, some "INVALID_PROXY")) :
    remote_get_tracks env now body = .terr 400 (some "INVALID_PROXY") := by
  unfold remote_get_tracks
  simp [ht, htne, hsv, h]

theorem remote_search_invalid_proxy_imp (env : ServerEnv) (now : Int) (body : RequestBody)
    (h : remote_search env now body = .err 400 (some "INVALID_PROXY")) :
    proxy_check body.proxy body.no_proxy = some (400, some "INVALID_PROXY") := by
  unfold remote_search at h
  split at h
  · exact absurd h (by simp)
  · split at h
    · exact absurd h (by simp)
    · split at h
      · exact absurd h (by simp)
      · split at h
        · rename_i r heq
          have hr := proxy_check_shape body.proxy body.no_proxy r heq
          rw [heq, hr]
        · split at h
          · exact absurd h (by simp)
          · split at h
            · exact absurd h (by simp)
            · split at h <;> exact absurd h (by simp)

theorem remote_get_tracks_invalid_proxy_imp (env : ServerEnv) (now : Int) (body : RequestBody)
    (h : remote_get_tracks env now body = .terr 400 (some "INVALID_PROXY")) :
    proxy_check body.proxy body.no_proxy = some (400, some "INVALID_PROXY") := by
  unfold remote_get_tracks at h
  split at h
  · exact absurd h (by simp)
  · split at h
    · exact absurd h (by simp)
    · split at h
      · exact absurd h (by simp)
      · split at h
        · rename_i r heq
          have hr := proxy_check_shape body.proxy body.no_proxy r heq
          rw [heq, hr]
        · split at h
          · exact absurd h (by simp)
          · split at h
            · exact absurd h (by simp)
            · rename_i sess heq
              have := tracksStage_err_code env sess body 400 (some "INVALID_PROXY") h
              exact absurd this.1 (by simp)

/-- C1: for every POST body handled by the `/api/remote/<tag>/` search and
tracks handlers that carries a (non-empty) `proxy` and has `no_proxy`
false, the handler returns 400 `INVALID_PROXY` iff the proxy does not match
`^https?://` — a fully qualified URI such as `http://u:p@h:1` is accepted
and an unresolved provider token such as `nordvpn:ca1066` is rejected. -/
theorem C1_invalid_proxy_iff (env : ServerEnv) (now : Int) (body : RequestBody)
    (q ti p : String)
    (hq : body.query = some q) (hqne : q ≠ "")
    (ht : body.title = some ti) (htne : ti ≠ "")
    (hsv : env.serviceValid = true)
    (hp : body.proxy = some p) (hpne : p ≠ "") (hnp : body.no_proxy = false) :
    (remote_search env now body = .err 400 (some "INVALID_PROXY")
      ↔ matchesHttpScheme p = false)
    ∧ (remote_get_tracks env now body = .terr 400 (some "INVALID_PROXY")
      ↔ matchesHttpScheme p = false) := by
  have hpc : proxy_check body.proxy body.no_proxy =
      if matchesHttpScheme p then none else some (400, some "INVALID_PROXY") := by
    rw [hp, hnp]
    exact proxy_check_some p hpne
  constructor
  · constructor
    · intro h
      have h2 := remote_search_invalid_proxy_imp env now body h
      rw [hpc] at h2
      by_cases hm : matchesHttpScheme p
      · rw [if_pos hm] at h2; cases h2
      · exact Bool.not_eq_true _ ▸ Bool.of_not_eq_true hm
    · intro hm
      refine remote_search_proxy_reject env now body q hq hqne hsv ?_
      rw [hpc, hm]
      rfl
  · constructor
    · intro h
      have h2 := remote_get_tracks_invalid_proxy_imp env now body h
      rw [hpc] at h2
      by_cases hm : matchesHttpScheme p
      · rw [if_pos hm] at h2; cases h2
      · exact Bool.not_eq_true _ ▸ Bool.of_not_eq_true hm
    · intro hm
      refine remote_get_tracks_proxy_reject env now body ti ht htne hsv ?_
      rw [hpc, hm]
      rfl

/-- Witness for C1: the fully qualified proxy `http://u:p@h:1` is not
rejected, while the provider token `nordvpn:ca1066` draws 400
`INVALID_PROXY` from both handlers. -/
theorem C1_invalid_proxy_iff_witness :
    remote_search envFix 0
        { query := some "q", title := some "t", proxy := some "http://u:p@h:1"
        , pre_authenticated_session := some sdPre }
      ≠ .err 400 (some "INVALID_PROXY")
    ∧ remote_search envFix 0
        { query := some "q", title := some "t", proxy := some "nordvpn:ca1066"
        , pre_authenticated_session := some sdPre }
      = .err 400 (some "INVALID_PROXY")
    ∧ remote_get_tracks envFix 0
        { query := some "q", title := some "t", proxy := some "nordvpn:ca1066"
        , pre_authenticated_session := some sdPre }
      = .terr 400 (some "INVALID_PROXY") := by
  refine ⟨fun h => ?_, ?_, ?_⟩
  · have := (C1_invalid_proxy_iff envFix 0
        { query := some "q", title := some "t", proxy := some "http://u:p@h:1"
        , pre_authenticated_session := some sdPre }
        "q" "t" "http://u:p@h:1" rfl (by decide) rfl (by decide) rfl rfl (by decide) rfl).1.mp h
    exact absurd this (by decide)
  · exact (C1_invalid_proxy_iff envFix 0
        { query := some "q", title := some "t", proxy := some "nordvpn:ca1066"
        , pre_authenticated_session := some sdPre }
        "q" "t" "nordvpn:ca1066" rfl (by decide) rfl (by decide) rfl rfl (by decide) rfl).1.mpr
      (by decide)
  · exact (C1_invalid_proxy_iff envFix 0
        { query := some "q", title := some "t", proxy := some "nordvpn:ca1066"
        , pre_authenticated_session := some sdPre }
        "q" "t" "nordvpn:ca1066" rfl (by decide) rfl (by decide) rfl rfl (by decide) rfl).2.mpr
      (by decide)

/-- C4 (amended): a request to an `/api/remote/<tag>/` operation carrying
neither `pre_authenticated_session` nor `cookies` nor `credential` makes
the handler fall back to the server-side cookie jar and credentials
(`dl.get_cookie_jar` / `dl.get_credentials`); it answers 401
`AUTH_REQUIRED` iff those fallbacks are also absent (or the `authenticate`
call with them raises), and otherwise authenticates from the server-held
material and executes the operation. -/
theorem C4_auth_required_fallback (env : ServerEnv) (now : Int) (body : RequestBody)
    (q : String)
    (hpre : body.pre_authenticated_session = none)
    (hcook : body.cookies = none) (hcred : body.credential = none)
    (hq : body.query = some q) (hqne : q ≠ "") (hsv : env.serviceValid = true)
    (hpx : proxy_check body.proxy body.no_proxy = none) (hco : env.constructOk = true) :
    (remote_search env now body = .err 401 (some "AUTH_REQUIRED")
      ↔ ((cookiesFalsy env.serverCookies = true ∧ env.serverCred = none)
          ∨ env.authResultSession = none))
    ∧ (∀ s, env.authResultSession = some s →
        ¬ (cookiesFalsy env.serverCookies = true ∧ env.serverCred = none) →
        remote_search env now body =
          (if env.searchOk then .success (serialize_session s) else .err 500 none)) := by
  have hga : get_auth_from_request env now body =
      ⟨env.serverCookies, env.serverCred, none, none⟩ := by
    unfold get_auth_from_request
    simp [hpre, hcook, hcred]
  have hra : resolve_auth env now body =
      (if cookiesFalsy env.serverCookies = true ∧ env.serverCred = none then
        .authError "AUTH_REQUIRED"
      else
        match env.authResultSession with
        | some s => .sessionReady s
        | none => .authError "AUTH_REQUIRED") := by
    unfold resolve_auth
    rw [hga]
  have hrs : remote_search env now body =
      (match resolve_auth env now body with
       | .authError c => .err 401 (some c)
       | .sessionReady sess =>
          if env.searchOk then .success (serialize_session sess) else .err 500 none) := by
    unfold remote_search
    simp [hq, hqne, hsv, hpx, hco]
  rw [hrs, hra]
  by_cases hfb : cookiesFalsy env.serverCookies = true ∧ env.serverCred = none
  · rw [if_pos hfb]
    exact ⟨⟨fun _ => Or.inl hfb, fun _ => rfl⟩,
      fun s hs hnfb => absurd hfb hnfb⟩
  · rw [if_neg hfb]
    cases ha : env.authResultSession with
    | none =>
      exact ⟨⟨fun _ => Or.inr rfl, fun _ => rfl⟩, fun s hs _ => by cases hs⟩
    | some s =>
      refine ⟨⟨fun h => ?_, fun h => ?_⟩, fun s' hs' _ => by cases hs'; rfl⟩
      · by_cases hok : env.searchOk <;> simp [hok] at h
      · rcases h with h | h
        · exact absurd h hfb
        · cases h

/-- Witness for C4: with no client auth material and no server-side
fallbacks either, the search handler answers 401 `AUTH_REQUIRED`. -/
theorem C4_auth_required_fallback_witness :
    remote_search envFix 0 { query := some "q" } = .err 401 (some "AUTH_REQUIRED") :=
  (C4_auth_required_fallback envFix 0 { query := some "q" } "q"
      rfl rfl rfl rfl (by decide) rfl rfl rfl).1.mpr (Or.inl ⟨rfl, rfl⟩)

/-- Counterexample for C4 as stated: the claim says a request with none of
the three auth fields is answered 401 `AUTH_REQUIRED` rather than being
authenticated from material held on the server, but on a server whose
config provides a cookie jar for the service the handler authenticates
with the server-held cookies and executes the search. -/
theorem C4_auth_required_fallback_counterexample :
    remote_search
        { envFix with
          serverCookies := some [⟨"sid", "abc", "a.com", "/", false, none⟩]
        , authResultSession := some sessAuthz }
        0 { query := some "q" }
      = .success (serialize_session sessAuthz)
    ∧ remote_search
        { envFix with
          serverCookies := some [⟨"sid", "abc", "a.com", "/", false, none⟩]
        , authResultSession := some sessAuthz }
        0 { query := some "q" }
      ≠ .err 401 (some "AUTH_REQUIRED") := by
  constructor
  · decide
  · decide

theorem dictInsert_append {α : Type} (d : List (String × α)) (k : String) (v : α)
    (h : ∀ kv ∈ d, kv.1 ≠ k) : dictInsert d k v = d ++ [(k, v)] := by
  unfold dictInsert
  rw [if_neg]
  simp only [List.any_eq_true, decide_eq_true_eq, not_exists, not_and]
  intro kv hkv
  exact h kv hkv

theorem mem_dictInsert {α : Type} (d : List (String × α)) (k : String) (v : α)
    (x : String × α) (hx : x ∈ dictInsert d k v) : x ∈ d ∨ x = (k, v) := by
  unfold dictInsert at hx
  split at hx
  · rcases List.mem_map.mp hx with ⟨kv, hkv, heq⟩
    by_cases hk : kv.1 = k
    · rw [if_pos hk] at heq
      exact Or.inr heq.symm
    · rw [if_neg hk] at heq
      exact Or.inl (heq ▸ hkv)
  · rcases List.mem_append.mp hx with h | h
    · exact Or.inl h
    · exact Or.inr (List.mem_singleton.mp h)

/-- The attribute record `serialize_session` stores for a cookie. -/
def cookiePair (c : CookieRec) : String × CookieAttrs :=
  (c.name, ⟨c.value, c.domain, c.path, c.secure, c.expires⟩)

/-- The cookie `deserialize_session` sets for a recorded pair. -/
def cookieOfPair (nc : String × CookieAttrs) : CookieRec :=
  ⟨nc.1, nc.2.value, nc.2.domain, nc.2.path, nc.2.secure, nc.2.expires⟩

theorem cookieOfPair_cookiePair (c : CookieRec) : cookieOfPair (cookiePair c) = c := rfl

theorem serialize_cookies_fold (cs : List CookieRec) (d : List (String × CookieAttrs))
    (hd : ∀ kv ∈ d, kv.1 ∉ cs.map CookieRec.name)
    (hn : (cs.map CookieRec.name).Nodup) :
    cs.foldl (fun d c => dictInsert d c.name ⟨c.value, c.domain, c.path, c.secure, c.expires⟩) d
      = d ++ cs.map cookiePair := by
  induction cs generalizing d with
  | nil => simp
  | cons c rest ih =>
    simp only [List.map_cons, List.nodup_cons] at hn
    have hstep : dictInsert d c.name ⟨c.value, c.domain, c.path, c.secure, c.expires⟩
        = d ++ [cookiePair c] := by
      refine dictInsert_append d c.name _ (fun kv hkv => ?_)
      have := hd kv hkv
      simp only [List.map_cons, List.mem_cons] at this
      exact fun hk => this (Or.inl hk)
    have hd' : ∀ kv ∈ d ++ [cookiePair c], kv.1 ∉ rest.map CookieRec.name := by
      intro kv hkv
      rcases List.mem_append.mp hkv with h | h
      · have := hd kv h
        simp only [List.map_cons, List.mem_cons] at this
        exact fun hk => this (Or.inr hk)
      · rw [List.mem_singleton.mp h]
        exact hn.1
    simp only [List.foldl_cons, hstep, List.map_cons]
    rw [ih (d ++ [cookiePair c]) hd' hn.2]
    simp

theorem deserialize_cookies_fold (ps : List (String × CookieAttrs)) (jar : List CookieRec)
    (hj : ∀ x ∈ jar, x.name ∉ ps.map Prod.fst)
    (hn : (ps.map Prod.fst).Nodup) :
    ps.foldl (fun jar nc =>
        cookieSet jar ⟨nc.1, nc.2.value, nc.2.domain, nc.2.path, nc.2.secure, nc.2.expires⟩) jar
      = jar ++ ps.map cookieOfPair := by
  induction ps generalizing jar with
  | nil => simp
  | cons nc rest ih =>
    simp only [List.map_cons, List.nodup_cons] at hn
    have hstep : cookieSet jar (cookieOfPair nc) = jar ++ [cookieOfPair nc] := by
      unfold cookieSet
      rw [if_neg]
      simp only [List.any_eq_true, decide_eq_true_eq, not_exists, not_and]
      intro x hx hname
      exact absurd hname (by
        have := hj x hx
        simp only [List.map_cons, List.mem_cons] at this
        intro hh
        exact this (Or.inl hh))
    have hj' : ∀ x ∈ jar ++ [cookieOfPair nc], x.name ∉ rest.map Prod.fst := by
      intro x hx
      rcases List.mem_append.mp hx with h | h
      · have := hj x h
        simp only [List.map_cons, List.mem_cons] at this
        exact fun hk => this (Or.inr hk)
      · rw [List.mem_singleton.mp h]
        exact hn.1
    simp only [List.foldl_cons, List.map_cons]
    have : cookieSet jar ⟨nc.1, nc.2.value, nc.2.domain, nc.2.path, nc.2.secure, nc.2.expires⟩
        = jar ++ [cookieOfPair nc] := hstep
    rw [this, ih (jar ++ [cookieOfPair nc]) hj' hn.2]
    simp

theorem serialize_headers_fold (hs : List (String × String)) (d : List (String × String))
    (hd : ∀ kv ∈ d, kv.1 ∉ hs.map Prod.fst)
    (hn : (hs.map (fun kv => lowerStr kv.1)).Nodup) :
    hs.foldl (fun d kv =>
        if lowerStr kv.1 = "proxy-authorization" then d else dictInsert d kv.1 kv.2) d
      = d ++ hs.filter (fun kv => lowerStr kv.1 ≠ "proxy-authorization") := by
  induction hs generalizing d with
  | nil => simp
  | cons kv rest ih =>
    simp only [List.map_cons, List.nodup_cons] at hn
    have hnotin : kv.1 ∉ rest.map Prod.fst := by
      intro hmem
      exact hn.1 (List.mem_map.mpr (by
        rcases List.mem_map.mp hmem with ⟨kv', hkv', hfst⟩
        exact ⟨kv', hkv', by rw [hfst]⟩))
    by_cases hpa : lowerStr kv.1 = "proxy-authorization"
    · have hd' : ∀ kv' ∈ d, kv'.1 ∉ rest.map Prod.fst := by
        intro kv' hkv'
        have := hd kv' hkv'
        simp only [List.map_cons, List.mem_cons] at this
        exact fun hk => this (Or.inr hk)
      simp only [List.foldl_cons]
      rw [if_pos hpa, ih d hd' hn.2]
      simp [List.filter_cons, hpa]
    · have hstep : dictInsert d kv.1 kv.2 = d ++ [kv] := by
        have := dictInsert_append d kv.1 kv.2 (fun kv' hkv' => by
          have := hd kv' hkv'
          simp only [List.map_cons, List.mem_cons] at this
          exact fun hk => this (Or.inl hk))
        exact this
      have hd' : ∀ kv' ∈ d ++ [kv], kv'.1 ∉ rest.map Prod.fst := by
        intro kv' hkv'
        rcases List.mem_append.mp hkv' with h | h
        · have := hd kv' h
          simp only [List.map_cons, List.mem_cons] at this
          exact fun hk => this (Or.inr hk)
        · rw [List.mem_singleton.mp h]
          exact hnotin
      simp only [List.foldl_cons]
      rw [if_neg hpa, hstep, ih (d ++ [kv]) hd' hn.2]
      simp [List.filter_cons, hpa]

theorem deserialize_headers_fold (hs : List (String × String)) (acc : List (String × String))
    (ha : ∀ kv ∈ acc, lowerStr kv.1 ∉ hs.map (fun kv => lowerStr kv.1))
    (hn : (hs.map (fun kv => lowerStr kv.1)).Nodup) :
    hs.foldl (fun a kv => headerSet a kv.1 kv.2) acc = acc ++ hs := by
  induction hs generalizing acc with
  | nil => simp
  | cons kv rest ih =>
    simp only [List.map_cons, List.nodup_cons] at hn
    have hstep : headerSet acc kv.1 kv.2 = acc ++ [kv] := by
      unfold headerSet
      rw [if_neg]
      simp only [List.any_eq_true, decide_eq_true_eq, not_exists, not_and]
      intro kv' hkv'
      have := ha kv' hkv'
      simp only [List.map_cons, List.mem_cons] at this
      exact fun hk => this (Or.inl hk)
    have ha' : ∀ kv' ∈ acc ++ [kv], lowerStr kv'.1 ∉ rest.map (fun kv => lowerStr kv.1) := by
      intro kv' hkv'
      rcases List.mem_append.mp hkv' with h | h
      · have := ha kv' h
        simp only [List.map_cons, List.mem_cons] at this
        exact fun hk => this (Or.inr hk)
      · rw [List.mem_singleton.mp h]
        exact hn.1
    simp only [List.foldl_cons]
    rw [hstep, ih (acc ++ [kv]) ha' hn.2]
    simp

theorem serialize_headers_not_pa_aux (hs : List (String × String)) (d : List (String × String))
    (hd : ∀ kv ∈ d, lowerStr kv.1 ≠ "proxy-authorization") :
    ∀ kv ∈ hs.foldl (fun d kv =>
        if lowerStr kv.1 = "proxy-authorization" then d else dictInsert d kv.1 kv.2) d,
      lowerStr kv.1 ≠ "proxy-authorization" := by
  induction hs generalizing d with
  | nil => exact hd
  | cons kv rest ih =>
    simp only [List.foldl_cons]
    by_cases hpa : lowerStr kv.1 = "proxy-authorization"
    · rw [if_pos hpa]
      exact ih d hd
    · rw [if_neg hpa]
      refine ih (dictInsert d kv.1 kv.2) (fun kv' hkv' => ?_)
      rcases mem_dictInsert d kv.1 kv.2 kv' hkv' with h | h
      · exact hd kv' h
      · rw [h]
        exact hpa

theorem mem_headerSet (a : List (String × String)) (k v : String) (x : String × String)
    (hx : x ∈ headerSet a k v) : x ∈ a ∨ x = (k, v) := by
  unfold headerSet at hx
  split at hx
  · rcases List.mem_map.mp hx with ⟨kv, hkv, heq⟩
    by_cases hk : lowerStr kv.1 = lowerStr k
    · rw [if_pos hk] at heq
      exact Or.inr heq.symm
    · rw [if_neg hk] at heq
      exact Or.inl (heq ▸ hkv)
  · rcases List.mem_append.mp hx with h | h
    · exact Or.inl h
    · exact Or.inr (List.mem_singleton.mp h)

theorem deserialize_headers_pred_aux (hs : List (String × String))
    (acc : List (String × String)) (P : String → Prop)
    (hacc : ∀ kv ∈ acc, P kv.1) (hins : ∀ kv ∈ hs, P kv.1) :
    ∀ kv ∈ hs.foldl (fun a kv => headerSet a kv.1 kv.2) acc, P kv.1 := by
  induction hs generalizing acc with
  | nil => exact hacc
  | cons kv rest ih =>
    simp only [List.foldl_cons]
    refine ih (headerSet acc kv.1 kv.2) (fun kv' hkv' => ?_) (fun kv' hkv' => hins kv' (by simp [hkv']))
    rcases mem_headerSet acc kv.1 kv.2 kv' hkv' with h | h
    · exact hacc kv' h
    · rw [h]
      exact hins kv (by simp)

theorem serialize_session_cookies_eq (s : Session)
    (hn : (s.cookies.map CookieRec.name).Nodup) :
    (serialize_session s).cookies = s.cookies.map cookiePair := by
  unfold serialize_session
  simpa using serialize_cookies_fold s.cookies [] (by simp) hn

theorem serialize_session_headers_eq (s : Session)
    (hh : (s.headers.map (fun kv => lowerStr kv.1)).Nodup) :
    (serialize_session s).headers
      = s.headers.filter (fun kv => lowerStr kv.1 ≠ "proxy-authorization") := by
  unfold serialize_session
  simpa using serialize_headers_fold s.headers [] (by simp) hh

theorem serialize_session_headers_not_pa (s : Session) :
    ∀ kv ∈ (serialize_session s).headers, lowerStr kv.1 ≠ "proxy-authorization" :=
  serialize_headers_not_pa_aux s.headers [] (by simp)

theorem alookup_map_cookiePair (cs : List CookieRec) (c : CookieRec)
    (hn : (cs.map CookieRec.name).Nodup) (hc : c ∈ cs) :
    alookup (cs.map cookiePair) c.name
      = some ⟨c.value, c.domain, c.path, c.secure, c.expires⟩ := by
  induction cs with
  | nil => cases hc
  | cons c0 rest ih =>
    simp only [List.map_cons, List.nodup_cons] at hn
    rcases List.mem_cons.mp hc with h | h
    · subst h
      simp [alookup, cookiePair]
    · have hne : c0.name ≠ c.name := by
        intro heq
        exact hn.1 (heq ▸ List.mem_map.mpr ⟨c, h, rfl⟩)
      simp only [List.map_cons, alookup, cookiePair]
      rw [if_neg hne]
      exact ih hn.2 h

/-- C3 (amended): deserializing a serialized session into a fresh target
session reproduces the source's cookies (name, value, domain, path,
secure, expires) whenever the source's cookie names are pairwise distinct
(the record keys cookies by name, so a jar holding two same-named cookies
loses all but the last), and reproduces exactly the source's headers other
than `Proxy-Authorization`; for every source session, whatever letter case
`Proxy-Authorization` had, the target never acquires such a header. -/
theorem C3_roundtrip_session (s : Session) :
    (∀ kv ∈ (deserialize_session (serialize_session s) freshSession).headers,
        lowerStr kv.1 ≠ "proxy-authorization")
    ∧ ((s.cookies.map CookieRec.name).Nodup →
        (s.headers.map (fun kv => lowerStr kv.1)).Nodup →
        (deserialize_session (serialize_session s) freshSession).cookies = s.cookies
        ∧ (deserialize_session (serialize_session s) freshSession).headers
            = s.headers.filter (fun kv => lowerStr kv.1 ≠ "proxy-authorization")) := by
  constructor
  · simp only [deserialize_session, freshSession]
    intro kv hkv
    exact deserialize_headers_pred_aux (serialize_session s).headers []
      (fun k => lowerStr k ≠ "proxy-authorization") (by simp)
      (serialize_session_headers_not_pa s) kv hkv
  · intro hn hh
    have hceq := serialize_session_cookies_eq s hn
    have hheq := serialize_session_headers_eq s hh
    constructor
    · simp only [deserialize_session, freshSession]
      rw [hceq]
      have hnod : ((s.cookies.map cookiePair).map Prod.fst).Nodup := by
        simpa [List.map_map, Function.comp, cookiePair] using hn
      rw [deserialize_cookies_fold (s.cookies.map cookiePair) [] (by simp) hnod]
      simp only [List.nil_append, List.map_map]
      rw [show cookieOfPair ∘ cookiePair = id from funext cookieOfPair_cookiePair, List.map_id]
    · simp only [deserialize_session, freshSession]
      rw [hheq]
      have hnod2 : ((s.headers.filter
          (fun kv => lowerStr kv.1 ≠ "proxy-authorization")).map
            (fun kv => lowerStr kv.1)).Nodup :=
        ((s.headers.filter_sublist).map (fun kv => lowerStr kv.1)).nodup hh
      rw [deserialize_headers_fold _ [] (by simp) hnod2]
      simp

/-- Witness for C3: a concrete session with one cookie, an authorization
header and a mixed-case proxy-authorization header round-trips into a
fresh session that keeps the cookie and the authorization header and holds
no proxy-authorization header of any case. -/
theorem C3_roundtrip_session_witness :
    (deserialize_session (serialize_session
        ⟨[⟨"sid", "abc", "a.com", "/", true, none⟩],
          [("Authorization", "Bearer t"), ("pRoXy-AuThOrIzAtIoN", "secret")], []⟩)
      freshSession).cookies = [⟨"sid", "abc", "a.com", "/", true, none⟩]
    ∧ (deserialize_session (serialize_session
        ⟨[⟨"sid", "abc", "a.com", "/", true, none⟩],
          [("Authorization", "Bearer t"), ("pRoXy-AuThOrIzAtIoN", "secret")], []⟩)
      freshSession).headers = [("Authorization", "Bearer t")]
    ∧ ∀ kv ∈ (deserialize_session (serialize_session
        ⟨[⟨"sid", "abc", "a.com", "/", true, none⟩],
          [("Authorization", "Bearer t"), ("pRoXy-AuThOrIzAtIoN", "secret")], []⟩)
      freshSession).headers, lowerStr kv.1 ≠ "proxy-authorization" := by
  have h := C3_roundtrip_session
    ⟨[⟨"sid", "abc", "a.com", "/", true, none⟩],
      [("Authorization", "Bearer t"), ("pRoXy-AuThOrIzAtIoN", "secret")], []⟩
  have h2 := h.2 (by decide) (by decide)
  exact ⟨h2.1, by rw [h2.2]; decide, h.1⟩

/-- Counterexample for C3 as stated: a source session holding two cookies
that share the name `sid` (on different domains) does not round-trip —
`serialize_session` keys cookies by name, so only the last survives and
the rehydrated target differs from the source. -/
theorem C3_roundtrip_session_counterexample :
    (deserialize_session (serialize_session dupCookieSession) freshSession).cookies
      = [⟨"sid", "2", "b.com", "/", false, none⟩]
    ∧ dupCookieSession.cookies
      = [⟨"sid", "1", "a.com", "/", false, none⟩, ⟨"sid", "2", "b.com", "/", false, none⟩]
    ∧ (deserialize_session (serialize_session dupCookieSession) freshSession).cookies
      ≠ dupCookieSession.cookies := by
  refine ⟨by decide, by decide, by decide⟩

/-- C7 (amended): the record produced by `serialize_session` stores each
cookie's name, value, domain, path, secure and expires (keyed by name),
every header of the session except `Proxy-Authorization` compared
case-insensitively — and additionally a copy of the session's proxies map:
contrary to the claim, the `proxies` key IS exported into the record (the
deserializer is what ignores it on the receiving side). -/
theorem C7_serialize_record (s : Session)
    (hn : (s.cookies.map CookieRec.name).Nodup)
    (hh : (s.headers.map (fun kv => lowerStr kv.1)).Nodup) :
    (serialize_session s).proxies = s.proxies
    ∧ (serialize_session s).cookies = s.cookies.map cookiePair
    ∧ (serialize_session s).headers
        = s.headers.filter (fun kv => lowerStr kv.1 ≠ "proxy-authorization")
    ∧ (∀ c ∈ s.cookies, alookup (serialize_session s).cookies c.name
        = some ⟨c.value, c.domain, c.path, c.secure, c.expires⟩)
    ∧ ∀ kv ∈ (serialize_session s).headers, lowerStr kv.1 ≠ "proxy-authorization" := by
  refine ⟨rfl, serialize_session_cookies_eq s hn, serialize_session_headers_eq s hh,
    fun c hc => ?_, serialize_session_headers_not_pa s⟩
  rw [serialize_session_cookies_eq s hn]
  exact alookup_map_cookiePair s.cookies c hn hc

/-- Witness for C7: on a concrete session with one cookie, two headers (one
of them a mixed-case proxy-authorization) and one configured proxy, the
record keeps the cookie under its name, keeps only the authorization
header, and carries the session's proxies map. -/
theorem C7_serialize_record_witness :
    alookup (serialize_session
        ⟨[⟨"sid", "abc", "a.com", "/", true, none⟩],
          [("Authorization", "Bearer t"), ("pRoXy-AuThOrIzAtIoN", "secret")],
          [("http", "http://p:1")]⟩).cookies "sid"
      = some ⟨"abc", "a.com", "/", true, none⟩
    ∧ (serialize_session
        ⟨[⟨"sid", "abc", "a.com", "/", true, none⟩],
          [("Authorization", "Bearer t"), ("pRoXy-AuThOrIzAtIoN", "secret")],
          [("http", "http://p:1")]⟩).headers = [("Authorization", "Bearer t")]
    ∧ (serialize_session
        ⟨[⟨"sid", "abc", "a.com", "/", true, none⟩],
          [("Authorization", "Bearer t"), ("pRoXy-AuThOrIzAtIoN", "secret")],
          [("http", "http://p:1")]⟩).proxies = [("http", "http://p:1")] := by
  have h := C7_serialize_record
    ⟨[⟨"sid", "abc", "a.com", "/", true, none⟩],
      [("Authorization", "Bearer t"), ("pRoXy-AuThOrIzAtIoN", "secret")],
      [("http", "http://p:1")]⟩ (by decide) (by decide)
  exact ⟨h.2.2.2.1 ⟨"sid", "abc", "a.com", "/", true, none⟩ (by decide),
    by rw [h.2.2.1]; decide, h.1⟩

/-- Counterexample for C7 as stated: the claim says no proxy configuration
of the session lands in the record, but serializing a session whose
proxies map is non-empty yields a record whose `proxies` key holds that
very map. -/
theorem C7_serialize_record_counterexample :
    (serialize_session proxySession).proxies = [("http", "http://127.0.0.1:8888")]
    ∧ (serialize_session proxySession).proxies ≠ [] := by
  refine ⟨by decide, by decide⟩

theorem raw_call_strip (rm : List String) (rs : List Nat) (meth : String) (o : Outcome) :
    raw_call rm rs meth (stripRetryAfter o) = raw_call rm rs meth o := by
  cases o <;> rfl

theorem retryLoop_strip (rm : List String) (rs : List Nat) (m : ℚ) (meth : String)
    (oracle : Nat → Outcome) :
    ∀ fuel attempt ws,
      retryLoop rm rs m meth (fun n => stripRetryAfter (oracle n)) attempt fuel ws
        = retryLoop rm rs m meth oracle attempt fuel ws := by
  intro fuel
  induction fuel with
  | zero =>
    intro attempt ws
    unfold retryLoop
    rw [raw_call_strip]
  | succ f ih =>
    intro attempt ws
    unfold retryLoop
    rw [raw_call_strip]
    cases raw_call rm rs meth (oracle attempt) with
    | ok s => rfl
    | error e => exact ih (attempt + 1) (wait_exponential m attempt :: ws)

theorem retryLoop_trace (rm : List String) (rs : List Nat) (m : ℚ) (meth : String)
    (oracle : Nat → Outcome) :
    ∀ fuel attempt ws, ∃ k, k ≤ fuel
      ∧ (retryLoop rm rs m meth oracle attempt fuel ws).attempts = attempt + k
      ∧ (retryLoop rm rs m meth oracle attempt fuel ws).waits
          = ws.reverse ++ (List.range k).map (fun i => wait_exponential m (attempt + i)) := by
  intro fuel
  induction fuel with
  | zero =>
    intro attempt ws
    refine ⟨0, le_refl 0, ?_, ?_⟩ <;>
      [skip; skip] <;> cases hr : raw_call rm rs meth (oracle attempt) <;>
      simp [retryLoop, hr]
  | succ f ih =>
    intro attempt ws
    cases hr : raw_call rm rs meth (oracle attempt) with
    | ok s =>
      refine ⟨0, Nat.zero_le _, ?_, ?_⟩ <;> simp [retryLoop, hr]
    | error e =>
      obtain ⟨k, hk, ha, hw⟩ := ih (attempt + 1) (wait_exponential m attempt :: ws)
      refine ⟨k + 1, Nat.succ_le_succ hk, ?_, ?_⟩
      · show (retryLoop rm rs m meth oracle attempt (f + 1) ws).attempts = attempt + (k + 1)
        unfold retryLoop
        rw [hr]
        rw [ha]
        omega
      · show (retryLoop rm rs m meth oracle attempt (f + 1) ws).waits
          = ws.reverse ++ (List.range (k + 1)).map (fun i => wait_exponential m (attempt + i))
        unfold retryLoop
        rw [hr]
        rw [hw]
        have hfun : (fun i => wait_exponential m (attempt + 1 + i))
            = (fun i => wait_exponential m (attempt + i)) ∘ Nat.succ := by
          funext i
          simp only [Function.comp]
          congr 1
          omega
        rw [List.range_succ_eq_map, List.map_cons, List.map_map, ← hfun]
        simp

theorem wait_exponential_le_MAX (m : ℚ) (n : Nat) : wait_exponential m n ≤ MAX_WAIT := by
  have hM : (0 : ℚ) ≤ MAX_WAIT := by norm_num [MAX_WAIT]
  unfold wait_exponential
  dsimp only
  split_ifs <;> first | assumption | linarith

/-- C8 (amended): for a method in the retryable set, a call that keeps
failing retryably is retried at most `retries − 1` times before the error
surfaces (one wait per retry); the wait before the (i+1)-st attempt is the
tenacity exponential `backoff_multiplier · 2^(i−1)` clamped to tenacity's
default maximum — it is computed from the attempt number alone, so the
`Retry-After` header of the failed response is NOT consulted (contrary to
the claim) and there is no jitter. -/
theorem C8_retry_semantics (cfg : RetryConfig) (method : String) (oracle : Nat → Outcome) :
    (executeHttp cfg method oracle).attempts - 1 ≤ cfg.retries - 1
    ∧ (executeHttp cfg method oracle).waits.length
        = (executeHttp cfg method oracle).attempts - 1
    ∧ (∀ i w, (executeHttp cfg method oracle).waits.get? i = some w →
        w = wait_exponential cfg.backoff_multiplier (i + 1) ∧ w ≤ MAX_WAIT)
    ∧ executeHttp cfg method (fun n => stripRetryAfter (oracle n))
        = executeHttp cfg method oracle := by
  unfold executeHttp
  by_cases hm : upperStr method ∈ cfg.retry_methods
  · rw [if_pos hm, if_pos hm]
    obtain ⟨k, hk, ha, hw⟩ := retryLoop_trace cfg.retry_methods cfg.retry_statuses
      cfg.backoff_multiplier (upperStr method) oracle (cfg.retries - 1) 1 []
    refine ⟨?_, ?_, ?_, ?_⟩
    · rw [ha]; omega
    · rw [ha, hw]; simp
    · intro i w h
      rw [hw] at h
      simp only [List.reverse_nil, List.nil_append, List.get?_map] at h
      rcases Option.map_eq_some'.mp h with ⟨j, hj, hfj⟩
      have hkj : j = i := by
        have hlt : i < k := by
          by_contra hge
          rw [List.get?_eq_none.mpr (by simpa using Nat.le_of_not_lt hge)] at hj
          cases hj
        rw [List.get?_range hlt] at hj
        exact (Option.some.inj hj).symm
      subst hkj
      refine ⟨?_, ?_⟩
      · rw [← hfj]
        congr 1
        omega
      · rw [← hfj]
        exact wait_exponential_le_MAX _ _
    · exact retryLoop_strip cfg.retry_methods cfg.retry_statuses cfg.backoff_multiplier
        (upperStr method) oracle (cfg.retries - 1) 1 []
  · rw [if_neg hm, if_neg hm]
    refine ⟨by simp, rfl, ?_, ?_⟩
    · intro i w h
      cases h
    · rw [raw_call_strip]

/-- Witness for C8: the always-503 GET call runs the default three attempts
(two retries), its first wait is the tenacity exponential for attempt 1,
and stripping `Retry-After` from every response leaves the run unchanged. -/
theorem C8_retry_semantics_witness :
    (executeHttp {} "GET" oracle503).attempts - 1 ≤ ({} : RetryConfig).retries - 1
    ∧ (executeHttp {} "GET" oracle503).waits.get? 0 = some (wait_exponential 1 1)
    ∧ wait_exponential 1 1 = wait_exponential ({} : RetryConfig).backoff_multiplier (0 + 1)
    ∧ executeHttp {} "GET" (fun n => stripRetryAfter (oracle503 n))
        = executeHttp {} "GET" oracle503 := by
  have h := C8_retry_semantics {} "GET" oracle503
  exact ⟨h.1, rfl, (h.2.2.1 0 (wait_exponential 1 1) rfl).1, h.2.2.2⟩

/-- Counterexample for C8 as stated: the first attempt's response is a 503
carrying `Retry-After: 100`, yet the wait before the retry is the plain
exponential 1 second — far below the advertised 100 seconds — because none
of `build_retry`'s components ever reads the response's headers. -/
theorem C8_retry_semantics_counterexample :
    executeHttp {} "GET" oracleRetryAfter = ⟨.ok 200, 2, [wait_exponential 1 1]⟩
    ∧ wait_exponential 1 1 = 1
    ∧ ¬ ((100 : ℚ) ≤ wait_exponential 1 1) := by
  refine ⟨rfl, ?_, ?_⟩ <;> norm_num [wait_exponential, MAX_WAIT]

theorem mem_insertTitle (a x : TitleT) (l : List TitleT) :
    x ∈ insertTitle a l ↔ x = a ∨ x ∈ l := by
  induction l with
  | nil => simp [insertTitle]
  | cons y ys ih =>
    unfold insertTitle
    by_cases hle : titleLe a y
    · rw [if_pos hle]
      simp
    · rw [if_neg hle]
      simp only [List.mem_cons, ih]
      tauto

theorem mem_sortTitles (x : TitleT) (l : List TitleT) :
    x ∈ sortTitles l ↔ x ∈ l := by
  induction l with
  | nil => simp [sortTitles]
  | cons y ys ih =>
    show x ∈ insertTitle y (sortTitles ys) ↔ _
    rw [mem_insertTitle]
    simp [ih]

theorem episodesPayload_eq_nil_iff (env : ServerEnv) (l : List TitleT) :
    episodesPayload env l = [] ↔ ∀ t ∈ l, env.getTracks t = none := by
  unfold episodesPayload
  rw [List.filterMap_eq_nil]
  constructor
  · intro h t ht
    have := h t ht
    unfold trackEntry at this
    exact Option.map_eq_none'.mp this
  · intro h t ht
    unfold trackEntry
    exact Option.map_eq_none'.mpr (h t ht)

theorem mem_episodesPayload_of_some (env : ServerEnv) (l : List TitleT) (t : TitleT) (p : Nat)
    (ht : t ∈ l) (hp : env.getTracks t = some p) : (t, p) ∈ episodesPayload env l := by
  unfold episodesPayload
  exact List.mem_filterMap.mpr ⟨t, ht, by unfold trackEntry; rw [hp]; rfl⟩

theorem mem_unavailableLabels_of_none (env : ServerEnv) (l : List TitleT) (t : TitleT)
    (ht : t ∈ l) (hn : env.getTracks t = none) :
    failedEpisodeLabel t ∈ unavailableLabels env l := by
  unfold unavailableLabels
  exact List.mem_map.mpr ⟨t, List.mem_filter.mpr ⟨ht, by simp [hn]⟩, rfl⟩

theorem remote_get_tracks_stage (env : ServerEnv) (now : Int) (body : RequestBody)
    (ti : String) (sess : Session)
    (ht : body.title = some ti) (htne : ti ≠ "") (hsv : env.serviceValid = true)
    (hpx : proxy_check body.proxy body.no_proxy = none) (hco : env.constructOk = true)
    (hauth : resolve_auth env now body = .sessionReady sess) :
    remote_get_tracks env now body = tracksStage env sess body := by
  unfold remote_get_tracks
  simp [ht, htne, hsv, hpx, hco, hauth]

/-- C9 (amended): for a multi-episode tracks request (wanted tokens
matching more than one episode), the handler answers success with one
entry per episode whose per-title `get_tracks` succeeds (in
season/number order) and lists every failing episode in
`unavailable_episodes` under the label `S{season}E{number:02d}` — for
season 1 episode 2 that is `"S1E02"`, the season number NOT zero-padded —
aborting with an error only when no matching episode resolves. -/
theorem C9_multi_episode_tracks (env : ServerEnv) (now : Int) (body : RequestBody)
    (ti : String) (sess : Session) (w : List String) (ts : List TitleT)
    (t0 : TitleT) (rest : List TitleT)
    (ht : body.title = some ti) (htne : ti ≠ "") (hsv : env.serviceValid = true)
    (hpx : proxy_check body.proxy body.no_proxy = none) (hco : env.constructOk = true)
    (hauth : resolve_auth env now body = .sessionReady sess)
    (hts : env.titles = some ts) (hw : wantedTokens body = some w)
    (hm : wantedFilter w ts = t0 :: rest)
    (hlen : (t0 :: rest).length > 1) (hep : (t0 :: rest).all isEpisode = true) :
    ((∃ t ∈ t0 :: rest, env.getTracks t ≠ none) →
      remote_get_tracks env now body
        = .multi (episodesPayload env (sortTitles (t0 :: rest)))
            (unavailableLabels env (sortTitles (t0 :: rest))) (serialize_session sess)
      ∧ (∀ t ∈ t0 :: rest, ∀ p, env.getTracks t = some p →
          (t, p) ∈ episodesPayload env (sortTitles (t0 :: rest)))
      ∧ (∀ t ∈ t0 :: rest, env.getTracks t = none →
          failedEpisodeLabel t ∈ unavailableLabels env (sortTitles (t0 :: rest))))
    ∧ ((∀ t ∈ t0 :: rest, env.getTracks t = none) →
        remote_get_tracks env now body = .terr 404 none) := by
  have hstage := remote_get_tracks_stage env now body ti sess ht htne hsv hpx hco hauth
  have hbody : tracksStage env sess body =
      (if (episodesPayload env (sortTitles (t0 :: rest))).isEmpty then .terr 404 none
       else .multi (episodesPayload env (sortTitles (t0 :: rest)))
         (unavailableLabels env (sortTitles (t0 :: rest))) (serialize_session sess)) := by
    simp only [tracksStage, hts, hw, hm]
    rw [if_pos (And.intro hlen hep)]
  rw [hstage, hbody]
  constructor
  · rintro ⟨t, htm, htne2⟩
    have hne : ¬ (episodesPayload env (sortTitles (t0 :: rest))).isEmpty := by
      rw [List.isEmpty_iff]
      intro hnil
      exact htne2 ((episodesPayload_eq_nil_iff env _).mp hnil t
        ((mem_sortTitles t (t0 :: rest)).mpr htm))
    rw [if_neg hne]
    refine ⟨rfl, fun t' ht' p hp =>
        mem_episodesPayload_of_some env _ t' p ((mem_sortTitles t' (t0 :: rest)).mpr ht') hp,
      fun t' ht' hn =>
        mem_unavailableLabels_of_none env _ t' ((mem_sortTitles t' (t0 :: rest)).mpr ht') hn⟩
  · intro hall
    have hemp : (episodesPayload env (sortTitles (t0 :: rest))).isEmpty := by
      rw [List.isEmpty_iff]
      exact (episodesPayload_eq_nil_iff env _).mpr
        (fun t htm => hall t ((mem_sortTitles t (t0 :: rest)).mp htm))
    rw [if_pos hemp]

/-- Witness for C9: three wanted episodes of season 1 with episode 2
failing — the handler returns entries for S1E1 and S1E3 and reports the
failure, and when every episode fails it answers 404. -/
theorem C9_multi_episode_tracks_witness :
    remote_get_tracks envEpisodes 0 bodyEpisodes
      = .multi [(.episode 1 1, 7), (.episode 1 3, 7)] ["S1E02"] sdPre
    ∧ (TitleT.episode 1 1, 7)
        ∈ episodesPayload envEpisodes (sortTitles [.episode 1 1, .episode 1 2, .episode 1 3])
    ∧ failedEpisodeLabel (.episode 1 2)
        ∈ unavailableLabels envEpisodes (sortTitles [.episode 1 1, .episode 1 2, .episode 1 3]) := by
  have h := (C9_multi_episode_tracks envEpisodes 0 bodyEpisodes "show"
      (deserialize_session sdPre freshSession) ["1x1", "1x2", "1x3"]
      [.episode 1 1, .episode 1 2, .episode 1 3]
      (.episode 1 1) [.episode 1 2, .episode 1 3]
      rfl (by decide) rfl rfl rfl
      (resolve_auth_preauth_fresh envEpisodes 0 bodyEpisodes sdPre rfl rfl)
      rfl rfl (by decide) (by decide) (by decide)).1
      ⟨.episode 1 1, by decide, by decide⟩
  refine ⟨?_, h.2.1 (.episode 1 1) (by decide) 7 (by decide),
    h.2.2 (.episode 1 2) (by decide) (by decide)⟩
  rw [h.1]
  decide

/-- Counterexample for C9 as stated: the claim (and the spec's scenario)
expects `unavailable_episodes:["S01E02"]`, but the source formats the
label as `f"S{season}E{number:02d}"` — the season is not zero-padded — so
the handler reports `["S1E02"]`, which differs from `["S01E02"]`. -/
theorem C9_multi_episode_tracks_counterexample :
    remote_get_tracks envEpisodes 0 bodyEpisodes
      = .multi [(.episode 1 1, 7), (.episode 1 3, 7)] ["S1E02"] sdPre
    ∧ failedEpisodeLabel (.episode 1 2) = "S1E02"
    ∧ "S1E02" ≠ "S01E02" := by
  refine ⟨by decide, by decide, by decide⟩

theorem localMatch_iff (x : String) (s : SvcInfo) :
    (lowerStr x == lowerStr s.tag || s.aliases.contains (lowerStr x)) = true
      ↔ localAliasMatch x s := by
  simp [localAliasMatch, List.elem_iff]

theorem remoteMatch_iff (x : String) (s : SvcInfo) :
    (lowerStr x == lowerStr s.tag || s.aliases.any (fun a => lowerStr a == lowerStr x)) = true
      ↔ remoteAliasMatch x s := by
  simp [remoteAliasMatch, List.any_eq_true]

/-- C10 (amended): `Services.get_tag` lower-cases its input; a LOCAL
service matches when the lowered input equals its lowered tag or is
literally contained in its `ALIASES` (so a local alias only matches
case-insensitively when the alias is stored in lowercase); a REMOTE
service matches when the lowered input equals its lowered tag or a
lowered alias; the first matching service's canonical tag is returned
(locals before remotes), and any other input is returned unchanged. -/
theorem C10_get_tag_lookup (L R : List SvcInfo) (x : String) :
    ((∃ s ∈ L, localAliasMatch x s) →
      ∃ s ∈ L, localAliasMatch x s ∧ get_tag L R x = s.tag)
    ∧ ((∀ s ∈ L, ¬ localAliasMatch x s) → (∃ s ∈ R, remoteAliasMatch x s) →
      ∃ s ∈ R, remoteAliasMatch x s ∧ get_tag L R x = s.tag)
    ∧ ((∀ s ∈ L, ¬ localAliasMatch x s) → (∀ s ∈ R, ¬ remoteAliasMatch x s) →
      get_tag L R x = x) := by
  simp only [get_tag]
  cases hf : L.find? (fun s => lowerStr x == lowerStr s.tag
      || s.aliases.contains (lowerStr x)) with
  | some s =>
    have hmem := List.mem_of_find?_eq_some hf
    have hmatch : localAliasMatch x s := by
      have hp := List.find?_some hf
      exact (localMatch_iff x s).mp hp
    exact ⟨fun _ => ⟨s, hmem, hmatch, rfl⟩,
      fun hno _ => absurd hmatch (hno s hmem),
      fun hno _ => absurd hmatch (hno s hmem)⟩
  | none =>
    have hnol : ∀ s ∈ L, ¬ localAliasMatch x s := by
      intro s hs hm
      exact (List.find?_eq_none.mp hf s hs) ((localMatch_iff x s).mpr hm)
    cases hg : R.find? (fun s => lowerStr x == lowerStr s.tag
        || s.aliases.any (fun a => lowerStr a == lowerStr x)) with
    | some s =>
      have hmem := List.mem_of_find?_eq_some hg
      have hmatch : remoteAliasMatch x s := by
        have hp := List.find?_some hg
        exact (remoteMatch_iff x s).mp hp
      refine ⟨fun he => ?_, fun _ _ => ⟨s, hmem, hmatch, rfl⟩,
        fun _ hno => absurd hmatch (hno s hmem)⟩
      · obtain ⟨s', hs', hm'⟩ := he
        exact absurd hm' (hnol s' hs')
    | none =>
      have hnor : ∀ s ∈ R, ¬ remoteAliasMatch x s := by
        intro s hs hm
        exact (List.find?_eq_none.mp hg s hs) ((remoteMatch_iff x s).mpr hm)
      refine ⟨fun he => ?_, fun _ he => ?_, fun _ _ => rfl⟩
      · obtain ⟨s, hs, hm⟩ := he
        exact absurd hm (hnol s hs)
      · obtain ⟨s, hs, hm⟩ := he
        exact absurd hm (hnor s hs)

/-- Witness for C10: with local service `NF` (alias `nf2`) and remote
service `AMZN` (alias `Prime`): `"NF2"` resolves to `NF` through the
lowercase local alias, `"PRIME"` resolves to `AMZN` through the folded
remote alias, and an unknown input comes back unchanged. -/
theorem C10_get_tag_lookup_witness :
    get_tag [⟨"NF", ["nf2"]⟩] [⟨"AMZN", ["Prime"]⟩] "NF2" = "NF"
    ∧ get_tag [⟨"NF", ["nf2"]⟩] [⟨"AMZN", ["Prime"]⟩] "PRIME" = "AMZN"
    ∧ get_tag [⟨"NF", ["nf2"]⟩] [⟨"AMZN", ["Prime"]⟩] "zdf" = "zdf" := by
  refine ⟨?_, ?_, ?_⟩
  · obtain ⟨s, hs, _, heq⟩ := (C10_get_tag_lookup [⟨"NF", ["nf2"]⟩] [⟨"AMZN", ["Prime"]⟩]
      "NF2").1 ⟨⟨"NF", ["nf2"]⟩, by decide, by decide⟩
    rw [heq, List.mem_singleton.mp hs]
  · obtain ⟨s, hs, _, heq⟩ := (C10_get_tag_lookup [⟨"NF", ["nf2"]⟩] [⟨"AMZN", ["Prime"]⟩]
      "PRIME").2.1 (by decide) ⟨⟨"AMZN", ["Prime"]⟩, by decide, by decide⟩
    rw [heq, List.mem_singleton.mp hs]
  · exact (C10_get_tag_lookup [⟨"NF", ["nf2"]⟩] [⟨"AMZN", ["Prime"]⟩]
      "zdf").2.2 (by decide) (by decide)

/-- Counterexample for C10 as stated: local service `NF` declares the
alias `Netflix`; the input `NETFLIX` equals that alias case-insensitively,
so the claim demands `get_tag` return `NF` — but the source compares the
lowered input literally against the unfolded local alias, finds no match,
and returns the input unchanged. -/
theorem C10_get_tag_lookup_counterexample :
    get_tag [⟨"NF", ["Netflix"]⟩] [] "NETFLIX" = "NETFLIX"
    ∧ lowerStr "NETFLIX" = lowerStr "Netflix"
    ∧ "NETFLIX" ≠ "NF" := by
  refine ⟨by decide, by decide, by decide⟩
